import Mathlib

/-!
Verification development for the StabilityApp survey ETL repository.

The repository has two batch scripts:
* `src/database/load_data.py` (`load_survey_data`): reads survey CSV rows,
  resolves lookup labels to surrogate keys, inserts Submissions,
  SubmissionScores and ReportRequests rows, commits once at the end, and
  rolls everything back on an uncaught exception.  Invalid UUIDs are
  skipped silently; a `pyodbc.IntegrityError` on the Submission insert is
  caught and the row is skipped.
* `src/scripts/report_generator.py` (`generate_sample_report`): selects the
  most recent submission with a non-null email, joins lookup labels,
  and renders a fixed-layout PDF.

The development below is a shallow embedding of both scripts: rows,
database state and exceptions are explicit Lean data, the Python control
flow becomes explicit `Except` plumbing, and external library behaviour
(`str.replace`, `datetime.fromisoformat`, dict lookup, pyodbc exceptions)
is modelled by small executable Lean functions documented in place.
-/

set_option autoImplicit false

namespace StabilityApp

/-- Parsed UUID values (the result of a successful `uuid.UUID(...)` call),
abstracted as strings; equality is all the pipeline uses. -/
abbrev UUID := String

/-- Model of a Python `datetime` value: the local clock reading (the ISO
text without any offset) together with an optional textual UTC-offset
part. `offset = none` models a timezone-naive datetime. -/
structure PyDatetime where
  clock : String
  offset : Option String
deriving DecidableEq, Repr

/-- The exception classes the scripts can observe, modelling Python /
pyodbc exception classes. -/
inductive PyExc where
  /-- `pyodbc.IntegrityError`: any integrity-constraint violation
  reported by the store (duplicate primary key, foreign-key or check
  constraint, ...). -/
  | integrityError
  /-- `KeyError` from a dict subscript, carrying the missing key. -/
  | keyError (k : String)
  /-- `ValueError`, e.g. from `datetime.fromisoformat` on a malformed
  string. -/
  | valueError
  /-- `AttributeError`, e.g. calling `.replace` on a NaN cell. -/
  | attributeError
  /-- `TypeError`, e.g. applying a float format spec to `None`. -/
  | typeError
  /-- Any other pyodbc error (connectivity loss and the like). -/
  | operationalError
deriving DecidableEq, Repr

/-- A row of the `Submissions` table. -/
structure Submission where
  submission_id : UUID
  created_at : PyDatetime
  age_range_id : Option Int
  region_id : Option Int
  instability_ratio : Option Rat
  first_name : Option String
  last_name : Option String
  email : Option String
deriving DecidableEq, Repr

/-- A row of the `SubmissionScores` table. -/
structure SubmissionScore where
  submission_id : UUID
  indicator_id : Int
  score_value : Int
deriving DecidableEq, Repr

/-- A row of the `ReportRequests` table. -/
structure ReportRequest where
  submission_id : UUID
  status : String
deriving DecidableEq, Repr

/-- The three tables the loader writes, in insertion order. -/
structure DB where
  submissions : List Submission
  scores : List SubmissionScore
  reportRequests : List ReportRequest
deriving DecidableEq, Repr

/-- A lookup cache (one of the `age_ranges` / `regions` / `indicators`
dicts the loader builds from the lookup tables): label to surrogate key. -/
abbrev Lookup := List (String × Int)

/-- `dict.get` / `dict[...]` resolution on a lookup cache (labels are
unique keys, so first match suffices). -/
def lookupLabel (t : Lookup) (k : String) : Option Int :=
  match t with
  | [] => none
  | (k0, v) :: rest => if k0 = k then some v else lookupLabel rest k

/-- One CSV row as the loader sees it after `pd.read_csv`.  `none` in an
optional field models a NaN / missing cell (`pd.notna` = `isSome`).
`id` holds the result of `uuid.UUID(row.id)`: `none` models a parse
failure (the `try`/`except` around the constructor).  Numeric cells are
rationals, since pandas may deliver floats such as `3.0`. -/
structure Row where
  id : Option UUID
  created_at : Option String
  age_range : Option String
  region : Option String
  instability_ratio : Option Rat
  first_name : Option String
  last_name : Option String
  email : Option String
  economic_management_rate : Option Rat
  immigration_policy_rate : Option Rat
  foreign_policy_rate : Option Rat
  domestic_policy_rate : Option Rat
  social_policy_rate : Option Rat
deriving DecidableEq, Repr

/-- External failure injection for the store, beyond what the `DB` value
itself determines.  The loader model detects duplicate submission IDs by
itself; `subFault` models the store raising an exception on the
Submissions insert for any other reason: `some .integrityError` is an
integrity-constraint violation other than the primary-key duplicate
(foreign-key, check, not-null, ...) and `some .operationalError` is a
connectivity-style failure.  `scoreFault` / `reportFault` likewise for
the other two inserts. -/
structure Env where
  subFault : Submission → Option PyExc
  scoreFault : SubmissionScore → Option PyExc
  reportFault : ReportRequest → Option PyExc

/-- The fault-free store environment. -/
def noFaultEnv : Env :=
  { subFault := fun _ => none
    scoreFault := fun _ => none
    reportFault := fun _ => none }

/-- Python `int(...)` applied to a rational: truncation toward zero,
computed as T-division of the numerator by the (positive)
denominator. -/
def pyTrunc (q : Rat) : Int :=
  Int.tdiv q.num q.den

/-- Does the pattern match at the head of the character list? -/
def matchesAt : List Char → List Char → Bool
  | [], _ => true
  | _ :: _, [] => false
  | p :: ps, c :: cs => p = c && matchesAt ps cs

/-- Model of Python `str.replace`: replace every (left-to-right,
non-overlapping) occurrence of `pat` by `rep`.  Structured with an
explicit fuel argument (the fuel only ever decreases by one per emitted
or skipped character, so `cs.length` fuel always suffices; the
fuel-exhausted branch is unreachable from `replaceAll`). -/
def replaceAllF : Nat → List Char → List Char → List Char → List Char
  | _, [], _, _ => []
  | 0, cs, _, _ => cs
  | fuel + 1, c :: rest, pat, rep =>
    if pat ≠ [] && matchesAt pat (c :: rest) then
      rep ++ replaceAllF fuel (List.drop (pat.length - 1) rest) pat rep
    else
      c :: replaceAllF fuel rest pat rep

/-- `str.replace` on character lists, with the fuel instantiated. -/
def replaceAll (cs pat rep : List Char) : List Char :=
  replaceAllF cs.length cs pat rep

/-- `str.replace` lifted to `String`. -/
def pyReplace (s pat rep : String) : String :=
  ⟨replaceAll s.data pat.data rep.data⟩

/-- The whitespace characters Python `str.strip()` removes (ASCII
portion). -/
def isSpaceChar (c : Char) : Bool :=
  c = ' ' || c = '\t' || c = '\n' || c = '\r' || c = '\x0b' || c = '\x0c'

/-- Model of Python `str.strip()` on a character list: drop leading and
trailing whitespace. -/
def stripChars (cs : List Char) : List Char :=
  ((cs.dropWhile isSpaceChar).reverse.dropWhile isSpaceChar).reverse

/-- Strict lexicographic order on character lists. -/
def charListLt : List Char → List Char → Bool
  | [], [] => false
  | [], _ :: _ => true
  | _ :: _, [] => false
  | a :: as, b :: bs => if a = b then charListLt as bs else decide (a < b)

/-- Lexicographic order (reflexive) on character lists. -/
def charListLe : List Char → List Char → Bool
  | [], _ => true
  | _ :: _, [] => false
  | a :: as, b :: bs => if a = b then charListLe as bs else decide (a < b)

/-- All characters are ASCII digits. -/
def allDigits (cs : List Char) : Bool :=
  cs.all Char.isDigit

/-- Structural model of the local-clock grammar accepted by
`datetime.fromisoformat`: `YYYY-MM-DD`, optionally followed by a single
separator character and `HH:MM`, optionally `:SS`, optionally a
fractional part.  Calendar range checks (month at most 12, ...) are
elided; they do not affect any claim. -/
def validIsoClock (cs : List Char) : Bool :=
  match cs with
  | y1 :: y2 :: y3 :: y4 :: '-' :: m1 :: m2 :: '-' :: d1 :: d2 :: rest =>
    allDigits [y1, y2, y3, y4, m1, m2, d1, d2] &&
    (match rest with
     | [] => true
     | _sep :: h1 :: h2 :: ':' :: n1 :: n2 :: rest2 =>
       allDigits [h1, h2, n1, n2] &&
       (match rest2 with
        | [] => true
        | ':' :: s1 :: s2 :: rest3 =>
          allDigits [s1, s2] &&
          (match rest3 with
           | [] => true
           | '.' :: frac => !frac.isEmpty && allDigits frac
           | _ => false)
        | _ => false)
     | _ => false)
  | _ => false

/-- A well-formed numeric offset part, sign included: `+HH:MM` or
`-HH:MM`. -/
def validOffset (cs : List Char) : Bool :=
  match cs with
  | [s, h1, h2, ':', n1, n2] => (s = '+' || s = '-') && allDigits [h1, h2, n1, n2]
  | _ => false

/-- Split a trailing numeric offset off an ISO datetime string: the
offset begins at the first `+` or `-` at index at least 8 (the two date
hyphens sit at indices 4 and 7, so a later sign character can only start
an offset in a well-formed input). -/
def splitOffsetAux (cs : List Char) (i : Nat) : List Char × Option (List Char) :=
  match cs with
  | [] => ([], none)
  | c :: rest =>
    if 8 ≤ i && (c = '+' || c = '-') then
      ([], some (c :: rest))
    else
      let p := splitOffsetAux rest (i + 1)
      (c :: p.1, p.2)

/-- Model of `datetime.fromisoformat`: split a trailing offset, check
both parts, and return the datetime (`none` models raising
`ValueError`).  The result is naive exactly when no offset part is
present. -/
def fromisoformat (s : String) : Option PyDatetime :=
  let p := splitOffsetAux s.data 0
  match p.2 with
  | none => if validIsoClock p.1 then some ⟨⟨p.1⟩, none⟩ else none
  | some o =>
    if validIsoClock p.1 && validOffset o then some ⟨⟨p.1⟩, some ⟨o⟩⟩ else none

/-- `datetime.fromisoformat(row.created_at.replace('+00:00', ''))`:
the loader's timestamp parse (load_data.py line 93). -/
def parseCreatedAt (s : String) : Option PyDatetime :=
  fromisoformat (pyReplace s "+00:00" "")

/-- The Submissions row built from a CSV row (the VALUES of the INSERT at
load_data.py lines 104-112): labels resolved through the caches with
`dict.get` under a `pd.notna` guard, optional scalars passed through. -/
def rowSubmission (age_ranges regions : Lookup) (r : Row) (sid : UUID)
    (ca : PyDatetime) : Submission :=
  { submission_id := sid
    created_at := ca
    age_range_id :=
      match r.age_range with
      | some lbl => lookupLabel age_ranges lbl
      | none => none
    region_id :=
      match r.region with
      | some lbl => lookupLabel regions lbl
      | none => none
    instability_ratio := r.instability_ratio
    first_name := r.first_name
    last_name := r.last_name
    email := r.email }

/-- The CSV-column to indicator-label mapping (load_data.py lines
122-128), in iteration order. -/
def indicator_mapping : List (String × String) :=
  [("economic_management_rate", "Economic Management"),
   ("immigration_policy_rate", "Immigration Policy"),
   ("foreign_policy_rate", "Foreign Policy"),
   ("domestic_policy_rate", "Domestic Policy"),
   ("social_policy_rate", "Social Policy")]

/-- The value of a rate column of a row, by CSV column name. -/
def rateValue (r : Row) (col : String) : Option Rat :=
  if col = "economic_management_rate" then r.economic_management_rate
  else if col = "immigration_policy_rate" then r.immigration_policy_rate
  else if col = "foreign_policy_rate" then r.foreign_policy_rate
  else if col = "domestic_policy_rate" then r.domestic_policy_rate
  else if col = "social_policy_rate" then r.social_policy_rate
  else none

/-- The attempt to INSERT into Submissions (load_data.py lines 103-112):
an injected store fault is raised as such; otherwise a duplicate
`submission_id` raises `IntegrityError` (the primary-key constraint) and
a fresh one is appended. -/
def submissionInsert (env : Env) (db : DB) (sub : Submission) :
    Except PyExc DB :=
  match env.subFault sub with
  | some e => .error e
  | none =>
    if db.submissions.any (fun s => s.submission_id = sub.submission_id) then
      .error .integrityError
    else
      .ok { db with submissions := db.submissions ++ [sub] }

/-- The score-insert loop (load_data.py lines 132-138): for each mapping
entry whose rate cell is non-NaN, `indicators[indicator_name]` (raising
`KeyError` when unmapped), then INSERT the integer-coerced score; any
raised exception propagates. -/
def insertScores (env : Env) (indicators : Lookup) (r : Row) (sid : UUID)
    (cols : List (String × String)) (db : DB) : Except PyExc DB :=
  match cols with
  | [] => .ok db
  | (col, name) :: rest =>
    match rateValue r col with
    | none => insertScores env indicators r sid rest db
    | some q =>
      match lookupLabel indicators name with
      | none => .error (.keyError name)
      | some iid =>
        let sc : SubmissionScore := ⟨sid, iid, pyTrunc q⟩
        match env.scoreFault sc with
        | some e => .error e
        | none =>
          insertScores env indicators r sid rest
            { db with scores := db.scores ++ [sc] }

/-- The ReportRequests guard (load_data.py line 142):
`pd.notna(row.email) and row.email.strip()` — present and non-blank
after trimming. -/
def emailNonBlank (r : Row) : Bool :=
  match r.email with
  | some s => !(stripChars s.data).isEmpty
  | none => false

/-- Processing of one CSV row (the body of the `for` loop, load_data.py
lines 80-146): UUID parse failure skips the row silently; a missing or
malformed timestamp raises (propagates); the Submission insert is
attempted and `IntegrityError` is caught by skipping the rest of the
row; score inserts and the report-request insert follow, their
exceptions propagating. -/
def processRow (env : Env) (age_ranges regions indicators : Lookup)
    (r : Row) (db : DB) : Except PyExc DB :=
  match r.id with
  | none => .ok db
  | some sid =>
    match r.created_at with
    | none => .error .attributeError
    | some cstr =>
      match parseCreatedAt cstr with
      | none => .error .valueError
      | some ca =>
        match submissionInsert env db (rowSubmission age_ranges regions r sid ca) with
        | .error .integrityError => .ok db
        | .error e => .error e
        | .ok db1 =>
          match insertScores env indicators r sid indicator_mapping db1 with
          | .error e => .error e
          | .ok db2 =>
            if emailNonBlank r then
              let rr : ReportRequest := ⟨sid, "completed"⟩
              match env.reportFault rr with
              | some e => .error e
              | none =>
                .ok { db2 with reportRequests := db2.reportRequests ++ [rr] }
            else
              .ok db2

/-- Sequential processing of the whole row set inside the transaction
(the `for index, row in df.iterrows()` loop): the first uncaught
exception stops processing. -/
def processRows (env : Env) (age_ranges regions indicators : Lookup)
    (rows : List Row) (db : DB) : Except PyExc DB :=
  match rows with
  | [] => .ok db
  | r :: rest =>
    match processRow env age_ranges regions indicators r db with
    | .error e => .error e
    | .ok db1 => processRows env age_ranges regions indicators rest db1

/-- Outcome of a loader run: the durable (committed) state, how many
times `conn.commit()` ran, and the reported error if any (`some e`
models the `ERROR: ...` message printed before termination). -/
structure RunOutcome where
  committed : DB
  commits : Nat
  err : Option PyExc
deriving DecidableEq, Repr

/-- `load_survey_data` transaction shape (load_data.py lines 55-160):
all inserts run inside one transaction over the initial committed state
`db0`; on success `conn.commit()` runs once, on any uncaught exception
`conn.rollback()` discards every change and the error is reported. -/
def load_survey_data (env : Env) (age_ranges regions indicators : Lookup)
    (rows : List Row) (db0 : DB) : RunOutcome :=
  match processRows env age_ranges regions indicators rows db0 with
  | .ok db1 => ⟨db1, 1, none⟩
  | .error e => ⟨db0, 0, some e⟩

/-! ## Report generator (`src/scripts/report_generator.py`) -/

/-- The store as the report generator reads it: the three written tables
plus the lookup tables keyed by surrogate key. -/
structure Store where
  submissions : List Submission
  scores : List SubmissionScore
  ageRanges : List (Int × String)
  regions : List (Int × String)
  indicators : List (Int × String)
deriving Repr

/-- Comparison of stored datetimes, as SQL `ORDER BY created_at` sees
them: for the fixed-width naive ISO clocks the loader stores, the
lexicographic order on the clock text is the chronological order. -/
def dtLe (a b : PyDatetime) : Bool :=
  charListLe a.clock.data b.clock.data

/-- Strict version of `dtLe`. -/
def dtLt (a b : PyDatetime) : Bool :=
  charListLt a.clock.data b.clock.data

/-- The `SELECT TOP 1 submission_id FROM Submissions WHERE email IS NOT
NULL ORDER BY created_at DESC` query (report_generator.py lines 55-59):
scan for a submission with the greatest `created_at` among those whose
email is non-null. -/
def latestWithEmail (subs : List Submission) : Option Submission :=
  match subs with
  | [] => none
  | s :: rest =>
    match latestWithEmail rest, s.email with
    | none, none => none
    | none, some _ => some s
    | some b, none => some b
    | some b, some _ =>
      if dtLt s.created_at b.created_at then some b else some s

/-- Result row of the detail query with its two LEFT JOINs
(report_generator.py lines 72-80). -/
structure SubmissionDetail where
  submission_id : UUID
  created_at : PyDatetime
  instability_ratio : Option Rat
  first_name : Option String
  last_name : Option String
  email : Option String
  age_range_label : Option String
  region_name : Option String
deriving DecidableEq, Repr

/-- Look a surrogate key up in a lookup table; a null key or a dangling
key yields a null label (LEFT JOIN semantics). -/
def lookupById (t : List (Int × String)) (k : Option Int) : Option String :=
  match k with
  | none => none
  | some i =>
    match t.find? (fun p => p.1 = i) with
    | some p => some p.2
    | none => none

/-- The detail query for one submission: its columns plus the
outer-joined age-range and region labels. -/
def fetchDetail (st : Store) (s : Submission) : SubmissionDetail :=
  { submission_id := s.submission_id
    created_at := s.created_at
    instability_ratio := s.instability_ratio
    first_name := s.first_name
    last_name := s.last_name
    email := s.email
    age_range_label := lookupById st.ageRanges s.age_range_id
    region_name := lookupById st.regions s.region_id }

/-- The scores query (report_generator.py lines 86-93): all score rows of
the submission inner-joined to indicator names. -/
def fetchScores (st : Store) (sid : UUID) : List (String × Int) :=
  (st.scores.filter (fun ss => ss.submission_id = sid)).filterMap
    (fun ss =>
      match lookupById st.indicators (some ss.indicator_id) with
      | some nm => some (nm, ss.score_value)
      | none => none)

/-- Python `x or 'N/A'` on an optional string: `None` and the empty
string both render as the placeholder. -/
def orNA (x : Option String) : String :=
  match x with
  | some s => if s = "" then "N/A" else s
  | none => "N/A"

/-- Python `x or ''` on an optional string. -/
def orEmpty (x : Option String) : String :=
  match x with
  | some s => s
  | none => ""

/-- `created_at.strftime('%Y-%m-%d')`: the calendar-date part of the
stored clock reading (its first ten characters). -/
def strftimeDate (d : PyDatetime) : String :=
  ⟨d.clock.data.take 10⟩

/-- The user-information table (report_generator.py lines 113-119),
row by row.  Note the name cell: `first_name or 'N/A'` but
`last_name or ''`. -/
def userData (d : SubmissionDetail) : List (List String) :=
  [["Name:", orNA d.first_name ++ " " ++ orEmpty d.last_name],
   ["Email:", orNA d.email],
   ["Submission Date:", strftimeDate d.created_at],
   ["Region:", orNA d.region_name],
   ["Age Range:", orNA d.age_range_label]]

/-- The number of hundredths in `q`, rounded to nearest (half up):
`floor(q * 100 + 1/2) = fdiv(200 * num + den, 2 * den)`. -/
def ratioCenti (q : Rat) : Int :=
  Int.fdiv (200 * q.num + (q.den : Int)) (2 * (q.den : Int))

/-- Two-decimal rendering of a rational, modelling `f"{q:.2f}"` on a
float (rounding detail abstracted to nearest-half-up; no claim depends
on the digits produced for an actual number). -/
def ratioToString2 (q : Rat) : String :=
  let n : Int := ratioCenti q
  let sign := if n < 0 then "-" else ""
  let m := n.natAbs
  let fp := m % 100
  sign ++ toString (m / 100) ++ "." ++ (if fp < 10 then "0" else "") ++ toString fp

/-- `f"{submission.instability_ratio:.2f}"` (report_generator.py line
148): formatting `None` with a float format spec raises `TypeError`. -/
def formatRatio2 (x : Option Rat) : Except PyExc String :=
  match x with
  | none => .error .typeError
  | some q => .ok (ratioToString2 q)

/-- Outcome of a report-generator run. -/
inductive ReportResult where
  /-- No submission with a non-null email: the script prints
  `No submissions with email found!` and returns; no file is written. -/
  | noSubmissions
  /-- The PDF `filename` is written, with the given user-information
  table and scores table. -/
  | report (filename : String) (user_data score_data : List (List String))
  /-- An uncaught exception: the script crashes before `doc.build`, so
  no file is written. -/
  | raised (e : PyExc)
deriving DecidableEq, Repr

/-- `generate_sample_report` (report_generator.py lines 37-167): select
the latest submission with an email (or stop), run the detail and score
queries, assemble the two tables — the trailing scores row formats the
instability ratio and raises on `None` — and write
`stability_report_<id>.pdf`. -/
def generate_sample_report (st : Store) : ReportResult :=
  match latestWithEmail st.submissions with
  | none => .noSubmissions
  | some s =>
    let d := fetchDetail st s
    let scoreRows :=
      [["Indicator", "Score"]] ++
        (fetchScores st s.submission_id).map (fun p => [p.1, toString p.2])
    match formatRatio2 d.instability_ratio with
    | .error e => .raised e
    | .ok ratioStr =>
      .report ("stability_report_" ++ s.submission_id ++ ".pdf")
        (userData d)
        (scoreRows ++ [["Instability Ratio", ratioStr]])

/-! ## Concrete fixtures

Small concrete lookup caches, rows, environments and stores used to
instantiate the theorems below on executable inputs. -/

/-- A concrete age-range cache. -/
def exAgeRanges : Lookup := [("18-24", 1), ("25-34", 2)]

/-- A concrete region cache. -/
def exRegions : Lookup := [("North", 10)]

/-- A concrete indicator cache with all five policy-domain labels. -/
def exIndicators : Lookup :=
  [("Economic Management", 101), ("Immigration Policy", 102),
   ("Foreign Policy", 103), ("Domestic Policy", 104), ("Social Policy", 105)]

/-- An indicator cache missing the `Economic Management` label. -/
def exIndicatorsNoEcon : Lookup :=
  [("Immigration Policy", 102), ("Foreign Policy", 103),
   ("Domestic Policy", 104), ("Social Policy", 105)]

/-- The empty database. -/
def emptyDB : DB := ⟨[], [], []⟩

/-- A fully populated valid CSV row with id `u1`. -/
def exRow : Row :=
  { id := some "u1"
    created_at := some "2024-01-15T10:00:00+00:00"
    age_range := some "18-24"
    region := some "North"
    instability_ratio := some (mkRat 42 100)
    first_name := some "John"
    last_name := some "Doe"
    email := some "a@b.com"
    economic_management_rate := some 3
    immigration_policy_rate := some 4
    foreign_policy_rate := some 5
    domestic_policy_rate := some 1
    social_policy_rate := some 2 }

/-- A second valid row with the fresh id `u2`. -/
def exRow2 : Row := { exRow with id := some "u2" }

/-- A row whose `id` cell fails UUID parsing. -/
def exRowBadId : Row := { exRow with id := none }

/-- A row whose `created_at` cell is not an ISO timestamp. -/
def exRowBadTs : Row := { exRow with created_at := some "garbage" }

/-- A row whose age-range and region labels appear in no lookup table. -/
def exRowUnmapped : Row :=
  { exRow with age_range := some "99+", region := some "Atlantis" }

/-- A store environment in which the Submissions insert for id `u1`
raises `IntegrityError` for a reason other than a duplicate primary key
(a different constraint violation). -/
def envIntegrityU1 : Env :=
  { noFaultEnv with
      subFault := fun s =>
        if s.submission_id = "u1" then some PyExc.integrityError else none }

/-- A store environment in which the Submissions insert for id `u1`
fails with a non-integrity (connectivity-style) error. -/
def envOperationalU1 : Env :=
  { noFaultEnv with
      subFault := fun s =>
        if s.submission_id = "u1" then some PyExc.operationalError else none }

/-- A stored submission with an email, a ratio, a first name but no last
name, and unresolved age-range/region references. -/
def exSubC7 : Submission :=
  { submission_id := "u1"
    created_at := ⟨"2024-01-15T10:00:00", none⟩
    age_range_id := none
    region_id := none
    instability_ratio := some (mkRat 42 100)
    first_name := some "John"
    last_name := none
    email := some "a@b.com" }

/-- A store holding only `exSubC7`. -/
def exStoreC7 : Store := ⟨[exSubC7], [], [], [], []⟩

/-- A store whose only submission has a null email. -/
def exStoreNoEmail : Store := ⟨[{ exSubC7 with email := none }], [], [], [], []⟩

/-- A store whose only (email-bearing) submission has a null instability
ratio. -/
def exStoreRatioNone : Store :=
  ⟨[{ exSubC7 with instability_ratio := none }], [], [], [], []⟩

/-- The Submissions row produced from `exRow` with the concrete lookup
caches. -/
def exRowSub : Submission :=
  { submission_id := "u1"
    created_at := ⟨"2024-01-15T10:00:00", none⟩
    age_range_id := some 1
    region_id := some 10
    instability_ratio := some (mkRat 42 100)
    first_name := some "John"
    last_name := some "Doe"
    email := some "a@b.com" }

/-- The database state after processing `exRow` from the empty
database. -/
def exRowDB : DB :=
  { submissions := [exRowSub]
    scores :=
      [⟨"u1", 101, 3⟩, ⟨"u1", 102, 4⟩, ⟨"u1", 103, 5⟩,
       ⟨"u1", 104, 1⟩, ⟨"u1", 105, 2⟩]
    reportRequests := [⟨"u1", "completed"⟩] }

/-- A concrete submission detail with every optional field null. -/
def exDetailAllNull : SubmissionDetail :=
  { submission_id := "u1"
    created_at := ⟨"2024-01-15T10:00:00", none⟩
    instability_ratio := none
    first_name := none
    last_name := none
    email := none
    age_range_label := none
    region_name := none }

/-! ## Helper lemmas -/

/-- A successful Submissions insert appends exactly the new row and
changes nothing else. -/
theorem submissionInsert_ok_shape (env : Env) (db : DB) (sub : Submission)
    (db1 : DB) (h : submissionInsert env db sub = .ok db1) :
    db1 = { db with submissions := db.submissions ++ [sub] } := by
  unfold submissionInsert at h
  cases hf : env.subFault sub with
  | some e => rw [hf] at h; cases h
  | none =>
    rw [hf] at h
    by_cases hd : db.submissions.any (fun s => s.submission_id = sub.submission_id)
    · rw [if_pos hd] at h; cases h
    · rw [if_neg hd] at h; cases h; rfl

/-- The score loop only appends to `scores`. -/
theorem insertScores_ok_shape (env : Env) (ind : Lookup) (r : Row) (sid : UUID) :
    ∀ (cols : List (String × String)) (db db2 : DB),
      insertScores env ind r sid cols db = .ok db2 →
      db2.submissions = db.submissions ∧
      db2.reportRequests = db.reportRequests := by
  intro cols
  induction cols with
  | nil => intro db db2 h; cases h; exact ⟨rfl, rfl⟩
  | cons p rest ih =>
    intro db db2 h
    obtain ⟨col, name⟩ := p
    unfold insertScores at h
    cases hr : rateValue r col with
    | none => rw [hr] at h; exact ih db db2 h
    | some q =>
      rw [hr] at h
      cases hl : lookupLabel ind name with
      | none => rw [hl] at h; cases h
      | some iid =>
        rw [hl] at h
        cases hf : env.scoreFault ⟨sid, iid, pyTrunc q⟩ with
        | some e => simp only [hf] at h; cases h
        | none =>
          simp only [hf] at h
          have h2 := ih _ db2 h
          simpa using h2

/-- `rateValue` at the first CSV rate column. -/
theorem rateValue_econ (r : Row) :
    rateValue r "economic_management_rate" = r.economic_management_rate := rfl

/-- `rateValue` at the second CSV rate column. -/
theorem rateValue_immi (r : Row) :
    rateValue r "immigration_policy_rate" = r.immigration_policy_rate := rfl

/-- `rateValue` at the third CSV rate column. -/
theorem rateValue_fore (r : Row) :
    rateValue r "foreign_policy_rate" = r.foreign_policy_rate := rfl

/-- `rateValue` at the fourth CSV rate column. -/
theorem rateValue_dome (r : Row) :
    rateValue r "domestic_policy_rate" = r.domestic_policy_rate := rfl

/-- `rateValue` at the fifth CSV rate column. -/
theorem rateValue_soci (r : Row) :
    rateValue r "social_policy_rate" = r.social_policy_rate := rfl

/-- Evaluation of the score loop when all five rate columns are present,
all five indicator labels are mapped and the store injects no fault:
exactly the five integer-coerced, correctly keyed score rows are
appended, in column order. -/
theorem insertScores_all_five (env : Env) (i : Lookup) (r : Row)
    (sid : UUID) (db : DB) (q1 q2 q3 q4 q5 : Rat) (k1 k2 k3 k4 k5 : Int)
    (h1 : r.economic_management_rate = some q1)
    (h2 : r.immigration_policy_rate = some q2)
    (h3 : r.foreign_policy_rate = some q3)
    (h4 : r.domestic_policy_rate = some q4)
    (h5 : r.social_policy_rate = some q5)
    (hk1 : lookupLabel i "Economic Management" = some k1)
    (hk2 : lookupLabel i "Immigration Policy" = some k2)
    (hk3 : lookupLabel i "Foreign Policy" = some k3)
    (hk4 : lookupLabel i "Domestic Policy" = some k4)
    (hk5 : lookupLabel i "Social Policy" = some k5)
    (hsf : ∀ sc, env.scoreFault sc = none) :
    insertScores env i r sid indicator_mapping db =
      .ok { db with scores := db.scores ++
        [⟨sid, k1, pyTrunc q1⟩, ⟨sid, k2, pyTrunc q2⟩,
         ⟨sid, k3, pyTrunc q3⟩, ⟨sid, k4, pyTrunc q4⟩,
         ⟨sid, k5, pyTrunc q5⟩] } := by
  simp [indicator_mapping, insertScores, rateValue_econ, rateValue_immi,
    rateValue_fore, rateValue_dome, rateValue_soci, h1, h2, h3, h4, h5,
    hk1, hk2, hk3, hk4, hk5, hsf]

/-- The id of the built Submissions row is the parsed UUID. -/
theorem rowSubmission_id (a g : Lookup) (r : Row) (sid : UUID)
    (ca : PyDatetime) : (rowSubmission a g r sid ca).submission_id = sid :=
  rfl

/-- If some mapping entry has a present rate cell but an unmapped
indicator label (and the store injects no score fault), the score loop
raises a `KeyError`. -/
theorem insertScores_keyError (env : Env) (i : Lookup) (r : Row)
    (sid : UUID) :
    ∀ (cols : List (String × String)) (db : DB) (col name : String) (q : Rat),
      (col, name) ∈ cols → rateValue r col = some q →
      lookupLabel i name = none → (∀ sc, env.scoreFault sc = none) →
      ∃ nm, insertScores env i r sid cols db = .error (.keyError nm) := by
  intro cols
  induction cols with
  | nil => intro db col name q hmem; exact absurd hmem (List.not_mem_nil _)
  | cons p rest ih =>
    intro db col name q hmem hrv hlk hsf
    obtain ⟨c0, n0⟩ := p
    cases hr0 : rateValue r c0 with
    | none =>
      rcases List.mem_cons.mp hmem with heq | hmem'
      · obtain ⟨hcol, hname⟩ := Prod.mk.injEq .. ▸ heq
        rw [← hcol, hrv] at hr0
        cases hr0
      · obtain ⟨nm, h⟩ := ih db col name q hmem' hrv hlk hsf
        exact ⟨nm, by simp only [insertScores, hr0]; exact h⟩
    | some q0 =>
      cases hl0 : lookupLabel i n0 with
      | none => exact ⟨n0, by simp only [insertScores, hr0, hl0]⟩
      | some iid =>
        rcases List.mem_cons.mp hmem with heq | hmem'
        · obtain ⟨hcol, hname⟩ := Prod.mk.injEq .. ▸ heq
          rw [← hname, hlk] at hl0
          cases hl0
        · obtain ⟨nm, h⟩ :=
            ih { db with scores := db.scores ++ [⟨sid, iid, pyTrunc q0⟩] }
              col name q hmem' hrv hlk hsf
          exact ⟨nm, by simp only [insertScores, hr0, hl0, hsf]; exact h⟩

/-! ## Claim theorems -/

/-- C2: the loader commits exactly once, after every input row has been
processed; any uncaught exception during processing rolls back every
change of the run (the committed state is the initial one) and the run
terminates reporting the error. -/
theorem c2_single_commit_and_rollback (env : Env) (a g i : Lookup)
    (rows : List Row) (db0 : DB) :
    (∀ db1, processRows env a g i rows db0 = .ok db1 →
       load_survey_data env a g i rows db0 = ⟨db1, 1, none⟩) ∧
    (∀ e, processRows env a g i rows db0 = .error e →
       load_survey_data env a g i rows db0 = ⟨db0, 0, some e⟩) := by
  constructor
  · intro db1 h; unfold load_survey_data; rw [h]
  · intro e h; unfold load_survey_data; rw [h]

/-- Witness for C2: a run whose second row has a malformed timestamp is
rolled back whole — the first row's committed insert does not survive —
and the error is reported; a fault-free run commits once. -/
theorem c2_single_commit_and_rollback_witness :
    load_survey_data noFaultEnv exAgeRanges exRegions exIndicators
      [exRow, exRowBadTs] emptyDB = ⟨emptyDB, 0, some .valueError⟩ :=
  (c2_single_commit_and_rollback noFaultEnv exAgeRanges exRegions exIndicators
    [exRow, exRowBadTs] emptyDB).2 .valueError rfl

/-- C3: a row whose `id` cell fails UUID parsing is skipped silently —
no inserts, no error, database state untouched — and processing
continues with the remaining rows. -/
theorem c3_invalid_uuid_skipped (env : Env) (a g i : Lookup) (r : Row)
    (db : DB) (rest : List Row) (h : r.id = none) :
    processRow env a g i r db = .ok db ∧
    processRows env a g i (r :: rest) db = processRows env a g i rest db := by
  have h1 : processRow env a g i r db = .ok db := by
    unfold processRow; rw [h]
  refine ⟨h1, ?_⟩
  simp only [processRows, h1]

/-- Witness for C3: the bad-id row leaves the empty database unchanged
and the batch continues with the next row. -/
theorem c3_invalid_uuid_skipped_witness :
    processRow noFaultEnv exAgeRanges exRegions exIndicators exRowBadId
      emptyDB = .ok emptyDB ∧
    processRows noFaultEnv exAgeRanges exRegions exIndicators
      (exRowBadId :: [exRow]) emptyDB =
    processRows noFaultEnv exAgeRanges exRegions exIndicators [exRow] emptyDB :=
  c3_invalid_uuid_skipped noFaultEnv exAgeRanges exRegions exIndicators
    exRowBadId emptyDB [exRow] rfl

/-- C1 counterexample.  The claim: a Submission-insert failure is
skipped (with the batch continuing) if and only if it is a uniqueness
violation on the submission ID, and any other insert failure aborts the
whole run with a rollback.  Here the store raises `IntegrityError` on
the insert of the fresh id `u1` for a reason other than a duplicate key
(`envIntegrityU1` — a different constraint violation, which pyodbc also
reports as `IntegrityError`), yet the run does not abort: the row is
skipped, the next row `u2` is processed and committed, and no error is
reported, refuting the claim at this input. -/
theorem c1_counterexample :
    (load_survey_data envIntegrityU1 exAgeRanges exRegions exIndicators
        [exRow, exRow2] emptyDB).err = none ∧
    (load_survey_data envIntegrityU1 exAgeRanges exRegions exIndicators
        [exRow, exRow2] emptyDB).commits = 1 ∧
    ((load_survey_data envIntegrityU1 exAgeRanges exRegions exIndicators
        [exRow, exRow2] emptyDB).committed.submissions.map
          (fun s => s.submission_id)) = ["u2"] :=
  ⟨rfl, rfl, rfl⟩

/-- C1 (amended): the remainder of a row's processing is skipped and the
batch continues exactly when the Submission insert raises
`IntegrityError` — any integrity-constraint violation, of which a
duplicate submission ID is one case — while an insert failure of any
other exception class aborts the whole run with a rollback. -/
theorem c1_integrity_skip_others_abort (env : Env) (a g i : Lookup)
    (r : Row) (db : DB) (sid : UUID) (c : String) (ca : PyDatetime)
    (rest : List Row) (hid : r.id = some sid) (hc : r.created_at = some c)
    (hca : parseCreatedAt c = some ca) :
    (submissionInsert env db (rowSubmission a g r sid ca) =
        .error .integrityError →
      processRow env a g i r db = .ok db ∧
      processRows env a g i (r :: rest) db =
        processRows env a g i rest db) ∧
    (∀ e, submissionInsert env db (rowSubmission a g r sid ca) = .error e →
      e ≠ .integrityError →
      processRow env a g i r db = .error e ∧
      load_survey_data env a g i (r :: rest) db = ⟨db, 0, some e⟩) := by
  constructor
  · intro h
    have h1 : processRow env a g i r db = .ok db := by
      simp only [processRow, hid, hc, hca, h]
    exact ⟨h1, by simp only [processRows, h1]⟩
  · intro e h hne
    have h1 : processRow env a g i r db = .error e := by
      cases e with
      | integrityError => exact absurd rfl hne
      | keyError k => simp only [processRow, hid, hc, hca, h]
      | valueError => simp only [processRow, hid, hc, hca, h]
      | attributeError => simp only [processRow, hid, hc, hca, h]
      | typeError => simp only [processRow, hid, hc, hca, h]
      | operationalError => simp only [processRow, hid, hc, hca, h]
    refine ⟨h1, ?_⟩
    unfold load_survey_data
    simp only [processRows, h1]

/-- Witness for the amended C1: with the non-duplicate
`IntegrityError` injected, the row is skipped and the batch continues;
with an operational error injected instead, the run aborts, rolls back
to the initial state and reports the error. -/
theorem c1_integrity_skip_others_abort_witness :
    (processRow envIntegrityU1 exAgeRanges exRegions exIndicators exRow
        emptyDB = .ok emptyDB ∧
      processRows envIntegrityU1 exAgeRanges exRegions exIndicators
        (exRow :: [exRow2]) emptyDB =
      processRows envIntegrityU1 exAgeRanges exRegions exIndicators
        [exRow2] emptyDB) ∧
    (processRow envOperationalU1 exAgeRanges exRegions exIndicators exRow
        emptyDB = .error .operationalError ∧
      load_survey_data envOperationalU1 exAgeRanges exRegions exIndicators
        (exRow :: [exRow2]) emptyDB =
      ⟨emptyDB, 0, some .operationalError⟩) :=
  ⟨(c1_integrity_skip_others_abort envIntegrityU1 exAgeRanges exRegions
      exIndicators exRow emptyDB "u1" "2024-01-15T10:00:00+00:00"
      ⟨"2024-01-15T10:00:00", none⟩ [exRow2] rfl rfl rfl).1 rfl,
   (c1_integrity_skip_others_abort envOperationalU1 exAgeRanges exRegions
      exIndicators exRow emptyDB "u1" "2024-01-15T10:00:00+00:00"
      ⟨"2024-01-15T10:00:00", none⟩ [exRow2] rfl rfl rfl).2
     .operationalError rfl (by intro h; cases h)⟩

/-- C4: for a row whose Submission insert succeeded and whose processing
completed, exactly one ReportRequest row with status `completed` is
appended if and only if the email field is present and non-blank after
trimming; otherwise none is appended. -/
theorem c4_report_request_iff_email (env : Env) (a g i : Lookup) (r : Row)
    (db : DB) (sid : UUID) (c : String) (ca : PyDatetime) (db1 db' : DB)
    (hid : r.id = some sid) (hc : r.created_at = some c)
    (hca : parseCreatedAt c = some ca)
    (hins : submissionInsert env db (rowSubmission a g r sid ca) = .ok db1)
    (hrow : processRow env a g i r db = .ok db') :
    db'.reportRequests = db.reportRequests ++
      (if emailNonBlank r then [⟨sid, "completed"⟩] else []) := by
  have hdb1 : db1.reportRequests = db.reportRequests := by
    rw [submissionInsert_ok_shape env db _ db1 hins]
  simp only [processRow, hid, hc, hca, hins] at hrow
  cases hsc : insertScores env i r sid indicator_mapping db1 with
  | error e => rw [hsc] at hrow; cases hrow
  | ok db2 =>
    rw [hsc] at hrow
    have hdb2 :=
      (insertScores_ok_shape env i r sid indicator_mapping db1 db2 hsc).2
    cases he : emailNonBlank r with
    | false =>
      simp only [he, Bool.false_eq_true, if_false] at hrow
      cases hrow
      simp [he, hdb2, hdb1]
    | true =>
      simp only [he, if_true] at hrow
      cases hrf : env.reportFault ⟨sid, "completed"⟩ with
      | some e => rw [hrf] at hrow; cases hrow
      | none =>
        rw [hrf] at hrow
        cases hrow
        simp [he, hdb2, hdb1]

/-- Witness for C4: processing `exRow` (email `a@b.com`) from the empty
database appends exactly one completed ReportRequest for `u1`. -/
theorem c4_report_request_iff_email_witness :
    exRowDB.reportRequests = emptyDB.reportRequests ++
      (if emailNonBlank exRow then [⟨"u1", "completed"⟩] else []) :=
  c4_report_request_iff_email noFaultEnv exAgeRanges exRegions exIndicators
    exRow emptyDB "u1" "2024-01-15T10:00:00+00:00"
    ⟨"2024-01-15T10:00:00", none⟩ ⟨[exRowSub], [], []⟩ exRowDB
    rfl rfl rfl rfl rfl

/-- C5: for a row whose Submission insert succeeded and whose processing
completed, if all five fixed indicator columns have values (and their
labels are mapped, the store injecting no score fault), exactly five
SubmissionScore rows are appended, each carrying the integer-coerced
column value keyed to the corresponding indicator surrogate key. -/
theorem c5_five_scores (env : Env) (a g i : Lookup) (r : Row) (db : DB)
    (sid : UUID) (c : String) (ca : PyDatetime) (db1 db' : DB)
    (q1 q2 q3 q4 q5 : Rat) (k1 k2 k3 k4 k5 : Int)
    (hid : r.id = some sid) (hc : r.created_at = some c)
    (hca : parseCreatedAt c = some ca)
    (h1 : r.economic_management_rate = some q1)
    (h2 : r.immigration_policy_rate = some q2)
    (h3 : r.foreign_policy_rate = some q3)
    (h4 : r.domestic_policy_rate = some q4)
    (h5 : r.social_policy_rate = some q5)
    (hk1 : lookupLabel i "Economic Management" = some k1)
    (hk2 : lookupLabel i "Immigration Policy" = some k2)
    (hk3 : lookupLabel i "Foreign Policy" = some k3)
    (hk4 : lookupLabel i "Domestic Policy" = some k4)
    (hk5 : lookupLabel i "Social Policy" = some k5)
    (hsf : ∀ sc, env.scoreFault sc = none)
    (hins : submissionInsert env db (rowSubmission a g r sid ca) = .ok db1)
    (hrow : processRow env a g i r db = .ok db') :
    db'.scores = db.scores ++
      [⟨sid, k1, pyTrunc q1⟩, ⟨sid, k2, pyTrunc q2⟩,
       ⟨sid, k3, pyTrunc q3⟩, ⟨sid, k4, pyTrunc q4⟩,
       ⟨sid, k5, pyTrunc q5⟩] := by
  have hdb1 : db1.scores = db.scores := by
    rw [submissionInsert_ok_shape env db _ db1 hins]
  have hsc := insertScores_all_five env i r sid db1 q1 q2 q3 q4 q5
    k1 k2 k3 k4 k5 h1 h2 h3 h4 h5 hk1 hk2 hk3 hk4 hk5 hsf
  simp only [processRow, hid, hc, hca, hins, hsc] at hrow
  cases he : emailNonBlank r with
  | false =>
    simp only [he, Bool.false_eq_true, if_false] at hrow
    cases hrow
    rw [hdb1]
  | true =>
    simp only [he, if_true] at hrow
    cases hrf : env.reportFault ⟨sid, "completed"⟩ with
    | some e => rw [hrf] at hrow; cases hrow
    | none =>
      rw [hrf] at hrow
      cases hrow
      rw [hdb1]

/-- Witness for C5: processing `exRow` (all five rate columns populated)
appends exactly the five expected score rows. -/
theorem c5_five_scores_witness :
    exRowDB.scores = emptyDB.scores ++
      [⟨"u1", 101, pyTrunc 3⟩, ⟨"u1", 102, pyTrunc 4⟩,
       ⟨"u1", 103, pyTrunc 5⟩, ⟨"u1", 104, pyTrunc 1⟩,
       ⟨"u1", 105, pyTrunc 2⟩] :=
  c5_five_scores noFaultEnv exAgeRanges exRegions exIndicators exRow
    emptyDB "u1" "2024-01-15T10:00:00+00:00" ⟨"2024-01-15T10:00:00", none⟩
    ⟨[exRowSub], [], []⟩ exRowDB 3 4 5 1 2 101 102 103 104 105
    rfl rfl rfl rfl rfl rfl rfl rfl rfl rfl rfl rfl rfl
    (fun _ => rfl) rfl rfl

/-- C9: absent or unmapped age-range and region labels resolve to an
absent reference without raising, whereas an unmapped indicator label
with a present rate cell raises a `KeyError` that aborts the entire run
with a rollback — the lenient policy applies only to age-range and
region. -/
theorem c9_lenient_labels_fatal_indicator (env : Env) (a g i : Lookup)
    (r : Row) (db : DB) (sid : UUID) (c : String) (ca : PyDatetime)
    (rest : List Row) (hid : r.id = some sid) (hc : r.created_at = some c)
    (hca : parseCreatedAt c = some ca) :
    ((∀ lbl, r.age_range = some lbl → lookupLabel a lbl = none) →
       (rowSubmission a g r sid ca).age_range_id = none) ∧
    ((∀ lbl, r.region = some lbl → lookupLabel g lbl = none) →
       (rowSubmission a g r sid ca).region_id = none) ∧
    (∀ col name q, (col, name) ∈ indicator_mapping →
       rateValue r col = some q → lookupLabel i name = none →
       env.subFault (rowSubmission a g r sid ca) = none →
       db.submissions.any (fun s => s.submission_id = sid) = false →
       (∀ sc, env.scoreFault sc = none) →
       ∃ nm, processRow env a g i r db = .error (.keyError nm) ∧
         load_survey_data env a g i (r :: rest) db =
           ⟨db, 0, some (.keyError nm)⟩) := by
  refine ⟨?_, ?_, ?_⟩
  · intro h
    cases har : r.age_range with
    | none => simp [rowSubmission, har]
    | some lbl => simp [rowSubmission, har, h lbl har]
  · intro h
    cases hgr : r.region with
    | none => simp [rowSubmission, hgr]
    | some lbl => simp [rowSubmission, hgr, h lbl hgr]
  · intro col name q hmem hrv hlk hsubf hdup hsf
    have hins : submissionInsert env db (rowSubmission a g r sid ca) =
        .ok { db with submissions :=
                db.submissions ++ [rowSubmission a g r sid ca] } := by
      simp only [submissionInsert, hsubf, rowSubmission_id, hdup,
        Bool.false_eq_true, if_false]
    obtain ⟨nm, hsc⟩ := insertScores_keyError env i r sid indicator_mapping
      { db with submissions := db.submissions ++ [rowSubmission a g r sid ca] }
      col name q hmem hrv hlk hsf
    have hrowE : processRow env a g i r db = .error (.keyError nm) := by
      simp only [processRow, hid, hc, hca, hins, hsc]
    refine ⟨nm, hrowE, ?_⟩
    unfold load_survey_data
    simp only [processRows, hrowE]

/-- Witness for C9: with the unmapped labels of `exRowUnmapped` the
references resolve to `none`; with the `Economic Management` indicator
missing from the cache, the run aborts with a `KeyError` and rolls
back. -/
theorem c9_lenient_labels_fatal_indicator_witness :
    (rowSubmission exAgeRanges exRegions exRowUnmapped "u1"
        ⟨"2024-01-15T10:00:00", none⟩).age_range_id = none ∧
    (rowSubmission exAgeRanges exRegions exRowUnmapped "u1"
        ⟨"2024-01-15T10:00:00", none⟩).region_id = none ∧
    load_survey_data noFaultEnv exAgeRanges exRegions exIndicatorsNoEcon
      (exRowUnmapped :: []) emptyDB =
      ⟨emptyDB, 0, some (.keyError "Economic Management")⟩ := by
  have h := c9_lenient_labels_fatal_indicator noFaultEnv exAgeRanges
    exRegions exIndicatorsNoEcon exRowUnmapped emptyDB "u1"
    "2024-01-15T10:00:00+00:00" ⟨"2024-01-15T10:00:00", none⟩ [] rfl rfl rfl
  obtain ⟨nm, h1, h2⟩ := h.2.2 "economic_management_rate"
    "Economic Management" 3 (by decide) rfl rfl rfl rfl (fun _ => rfl)
  have hc2 : processRow noFaultEnv exAgeRanges exRegions exIndicatorsNoEcon
      exRowUnmapped emptyDB = .error (.keyError "Economic Management") := rfl
  rw [h1] at hc2
  have h3 : PyExc.keyError nm = PyExc.keyError "Economic Management" := by
    injection hc2
  refine ⟨h.1 ?_, h.2.1 ?_, by rw [h2, h3]⟩
  · intro lbl hl
    rw [show exRowUnmapped.age_range = some "99+" from rfl] at hl
    injection hl with h4
    rw [← h4]
    rfl
  · intro lbl hl
    rw [show exRowUnmapped.region = some "Atlantis" from rfl] at hl
    injection hl with h4
    rw [← h4]
    rfl

/-- C7 counterexample.  The claim: every null/absent field among age
range, region and the name parts renders as `N/A`.  In `exStoreC7` the
selected submission has a null last name, yet the rendered name cell is
`John ` — the null last-name part renders as the empty string
(`last_name or ''`), not as `N/A` (which would make the cell
`John N/A`), refuting the claim at this input. -/
theorem c7_counterexample :
    generate_sample_report exStoreC7 =
      .report "stability_report_u1.pdf"
        [["Name:", "John "], ["Email:", "a@b.com"],
         ["Submission Date:", "2024-01-15"], ["Region:", "N/A"],
         ["Age Range:", "N/A"]]
        [["Indicator", "Score"], ["Instability Ratio", "0.42"]] ∧
    "John " ≠ "John N/A" :=
  ⟨rfl, by decide⟩

/-- C7 (amended): null/absent age range, region, email and first name
render as the `N/A` placeholder (never as an empty cell, since the
substitution never yields an empty string), but a null last name renders
as the empty string appended after the first-name part. -/
theorem c7_na_placeholders (d : SubmissionDetail) :
    (d.age_range_label = none →
       (userData d)[4]? = some ["Age Range:", "N/A"]) ∧
    (d.region_name = none →
       (userData d)[3]? = some ["Region:", "N/A"]) ∧
    (d.email = none →
       (userData d)[1]? = some ["Email:", "N/A"]) ∧
    (d.first_name = none →
       (userData d)[0]? = some ["Name:", "N/A" ++ " " ++ orEmpty d.last_name]) ∧
    (d.last_name = none →
       (userData d)[0]? = some ["Name:", orNA d.first_name ++ " " ++ ""]) ∧
    (∀ x : Option String, orNA x ≠ "") := by
  refine ⟨?_, ?_, ?_, ?_, ?_, ?_⟩
  · intro h; simp [userData, orNA, h]
  · intro h; simp [userData, orNA, h]
  · intro h; simp [userData, orNA, h]
  · intro h; simp [userData, orNA, h]
  · intro h; simp [userData, orEmpty, h]
  · intro x
    cases x with
    | none => simp [orNA]
    | some s =>
      by_cases hs : s = ""
      · simp [orNA, hs]
      · simp [orNA, hs]

/-- Witness for the amended C7: at the all-null detail row every
placeholder conjunct applies. -/
theorem c7_na_placeholders_witness :
    (userData exDetailAllNull)[4]? = some ["Age Range:", "N/A"] ∧
    (userData exDetailAllNull)[3]? = some ["Region:", "N/A"] ∧
    (userData exDetailAllNull)[1]? = some ["Email:", "N/A"] ∧
    (userData exDetailAllNull)[0]? =
      some ["Name:", "N/A" ++ " " ++ orEmpty exDetailAllNull.last_name] ∧
    orNA none ≠ "" :=
  ⟨(c7_na_placeholders exDetailAllNull).1 rfl,
   (c7_na_placeholders exDetailAllNull).2.1 rfl,
   (c7_na_placeholders exDetailAllNull).2.2.1 rfl,
   (c7_na_placeholders exDetailAllNull).2.2.2.1 rfl,
   (c7_na_placeholders exDetailAllNull).2.2.2.2.2 none⟩

/-- C10: if the submission the report pipeline selects has a null
instability ratio, building the trailing scores-table row raises
(`TypeError` from formatting `None` with a float format spec), so the
run crashes and no file is produced. -/
theorem c10_null_ratio_crash (st : Store) (s : Submission)
    (hsel : latestWithEmail st.submissions = some s)
    (hr : s.instability_ratio = none) :
    generate_sample_report st = .raised .typeError := by
  have hd : (fetchDetail st s).instability_ratio = none := hr
  simp only [generate_sample_report, hsel, formatRatio2, hd]

/-- Witness for C10: the store whose only (email-bearing) submission has
a null ratio crashes the report run with a `TypeError`. -/
theorem c10_null_ratio_crash_witness :
    generate_sample_report exStoreRatioNone = .raised .typeError :=
  c10_null_ratio_crash exStoreRatioNone
    { exSubC7 with instability_ratio := none } rfl rfl

/-- `charListLe` is reflexive. -/
theorem charListLe_refl : ∀ cs : List Char, charListLe cs cs = true := by
  intro cs
  induction cs with
  | nil => rfl
  | cons a as ih => simp [charListLe, ih]

/-- Strict implies non-strict for the lexicographic order. -/
theorem charListLt_le : ∀ as bs : List Char,
    charListLt as bs = true → charListLe as bs = true := by
  intro as
  induction as with
  | nil => intro bs _; rfl
  | cons a as' ih =>
    intro bs h
    cases bs with
    | nil => cases h
    | cons b bs' =>
      by_cases hab : a = b
      · simp only [charListLt, hab, if_true] at h
        simp only [charListLe, hab, if_true] at h ⊢
        exact ih bs' h
      · simp only [charListLt, hab, if_false] at h
        simp only [charListLe, hab, if_false]
        exact h

/-- Failure of the strict comparison yields the reverse non-strict
comparison (totality). -/
theorem charListLt_false_le : ∀ as bs : List Char,
    charListLt as bs = false → charListLe bs as = true := by
  intro as
  induction as with
  | nil =>
    intro bs h
    cases bs with
    | nil => rfl
    | cons b bs' => cases h
  | cons a as' ih =>
    intro bs h
    cases bs with
    | nil => rfl
    | cons b bs' =>
      by_cases hab : a = b
      · simp only [charListLt, hab, if_true] at h
        have hba : b = a := hab.symm
        simp only [charListLe, hba, if_true]
        exact ih bs' h
      · simp only [charListLt, hab, if_false, decide_eq_false_iff_not] at h
        have hba : ¬ b = a := fun he => hab he.symm
        simp only [charListLe, hba, if_false, decide_eq_true_eq]
        rcases lt_or_gt_of_ne hab with hlt | hgt
        · exact absurd hlt h
        · exact hgt

/-- The lexicographic order is transitive. -/
theorem charListLe_trans : ∀ as bs cs : List Char,
    charListLe as bs = true → charListLe bs cs = true →
    charListLe as cs = true := by
  intro as
  induction as with
  | nil => intro bs cs _ _; rfl
  | cons a as' ih =>
    intro bs cs h1 h2
    cases bs with
    | nil => cases h1
    | cons b bs' =>
      cases cs with
      | nil => cases h2
      | cons c cs' =>
        by_cases hab : a = b <;> by_cases hbc : b = c
        · have hac : a = c := hab.trans hbc
          simp only [charListLe, hab, hbc, if_true] at h1 h2
          simp only [charListLe, hac, if_true]
          exact ih bs' cs' h1 h2
        · simp only [charListLe, hbc, if_false, decide_eq_true_eq] at h2
          have hac : ¬ a = c := fun he => hbc (hab.symm.trans he)
          simp only [charListLe, hac, if_false, decide_eq_true_eq]
          rw [hab]
          exact h2
        · simp only [charListLe, hab, if_false, decide_eq_true_eq] at h1
          have hac : ¬ a = c := fun he => hab (he.trans hbc.symm)
          simp only [charListLe, hac, if_false, decide_eq_true_eq]
          rw [← hbc]
          exact h1
        · simp only [charListLe, hab, hbc, if_false, decide_eq_true_eq]
            at h1 h2
          have hlt : a < c := lt_trans h1 h2
          have hac : ¬ a = c := ne_of_lt hlt
          simp only [charListLe, hac, if_false, decide_eq_true_eq]
          exact hlt

/-- If the latest-with-email scan returns nothing, every submission has
a null email. -/
theorem latestWithEmail_eq_none : ∀ subs : List Submission,
    latestWithEmail subs = none → ∀ t ∈ subs, t.email = none := by
  intro subs
  induction subs with
  | nil => intro _ t ht; exact absurd ht (List.not_mem_nil t)
  | cons s rest ih =>
    intro h t ht
    cases hrest : latestWithEmail rest with
    | none =>
      cases hse : s.email with
      | none =>
        rcases List.mem_cons.mp ht with he | hm
        · rw [he]; exact hse
        · exact ih (by simp only [latestWithEmail, hrest, hse]) t hm
      | some e => simp [latestWithEmail, hrest, hse] at h
    | some b =>
      cases hse : s.email with
      | none => simp [latestWithEmail, hrest, hse] at h
      | some e =>
        simp only [latestWithEmail, hrest, hse] at h
        by_cases hlt : dtLt s.created_at b.created_at = true
        · rw [if_pos hlt] at h; cases h
        · rw [if_neg hlt] at h; cases h

/-- If every submission has a null email, the latest-with-email scan
returns nothing. -/
theorem latestWithEmail_of_all_none : ∀ subs : List Submission,
    (∀ t ∈ subs, t.email = none) → latestWithEmail subs = none := by
  intro subs
  induction subs with
  | nil => intro _; rfl
  | cons s rest ih =>
    intro h
    have hse : s.email = none := h s (List.mem_cons_self s rest)
    have hrest : latestWithEmail rest = none :=
      ih (fun t ht => h t (List.mem_cons_of_mem s ht))
    simp only [latestWithEmail, hrest, hse]

/-- Specification of the latest-with-email scan: the returned submission
is in the list, carries a non-null email, and its creation timestamp is
maximal among email-bearing submissions. -/
theorem latestWithEmail_spec : ∀ (subs : List Submission) (b : Submission),
    latestWithEmail subs = some b →
    b ∈ subs ∧ b.email ≠ none ∧
    ∀ t ∈ subs, t.email ≠ none → dtLe t.created_at b.created_at = true := by
  intro subs
  induction subs with
  | nil => intro b h; cases h
  | cons s rest ih =>
    intro b h
    cases hrest : latestWithEmail rest with
    | none =>
      cases hse : s.email with
      | none => rw [latestWithEmail, hrest, hse] at h; cases h
      | some e =>
        rw [latestWithEmail, hrest, hse] at h
        cases h
        refine ⟨List.mem_cons_self s rest, by rw [hse]; simp, ?_⟩
        intro t ht hte
        rcases List.mem_cons.mp ht with he | hm
        · rw [he]; exact charListLe_refl _
        · exact absurd (latestWithEmail_eq_none rest hrest t hm) hte
    | some bb =>
      cases hse : s.email with
      | none =>
        simp only [latestWithEmail, hrest, hse] at h
        cases h
        obtain ⟨hmem, hemail, hmax⟩ := ih b hrest
        refine ⟨List.mem_cons_of_mem s hmem, hemail, ?_⟩
        intro t ht hte
        rcases List.mem_cons.mp ht with he | hm
        · rw [he] at hte; exact absurd hse hte
        · exact hmax t hm hte
      | some e =>
        simp only [latestWithEmail, hrest, hse] at h
        obtain ⟨hmem, hemail, hmax⟩ := ih bb hrest
        by_cases hlt : dtLt s.created_at bb.created_at = true
        · rw [if_pos hlt] at h
          cases h
          refine ⟨List.mem_cons_of_mem s hmem, hemail, ?_⟩
          intro t ht hte
          rcases List.mem_cons.mp ht with he | hm
          · rw [he]; exact charListLt_le _ _ hlt
          · exact hmax t hm hte
        · rw [if_neg hlt] at h
          cases h
          refine ⟨List.mem_cons_self s rest, by rw [hse]; simp, ?_⟩
          intro t ht hte
          rcases List.mem_cons.mp ht with he | hm
          · rw [he]; exact charListLe_refl _
          · have h1 := hmax t hm hte
            have h2 : charListLe bb.created_at.clock.data
                s.created_at.clock.data = true :=
              charListLt_false_le _ _ (Bool.eq_false_iff.mpr hlt ▸ rfl)
            exact charListLe_trans _ _ _ h1 h2

/-- C8: the report pipeline selects a submission with maximal creation
timestamp among those with a non-null email; when no submission has a
non-null email it stops with the not-found outcome and produces no
file. -/
theorem c8_latest_submission_with_email (st : Store) :
    ((∀ s ∈ st.submissions, s.email = none) →
       generate_sample_report st = .noSubmissions) ∧
    (∀ b, latestWithEmail st.submissions = some b →
       b ∈ st.submissions ∧ b.email ≠ none ∧
       ∀ t ∈ st.submissions, t.email ≠ none →
         dtLe t.created_at b.created_at = true) := by
  constructor
  · intro h
    have hn := latestWithEmail_of_all_none st.submissions h
    simp only [generate_sample_report, hn]
  · intro b hb
    exact latestWithEmail_spec st.submissions b hb

/-- Witness for C8: the store whose only submission lacks an email
yields the not-found outcome; the store with an email-bearing submission
selects it, and it dominates every email-bearing submission. -/
theorem c8_latest_submission_with_email_witness :
    generate_sample_report exStoreNoEmail = .noSubmissions ∧
    (exSubC7 ∈ exStoreC7.submissions ∧ exSubC7.email ≠ none ∧
      ∀ t ∈ exStoreC7.submissions, t.email ≠ none →
        dtLe t.created_at exSubC7.created_at = true) :=
  ⟨(c8_latest_submission_with_email exStoreNoEmail).1 (by decide),
   (c8_latest_submission_with_email exStoreC7).2 exSubC7 rfl⟩

/-- `str.replace` with a pattern starting in `+` leaves a plus-free text
unchanged, whatever the fuel. -/
theorem replaceAllF_id_of_no_plus (ps rep : List Char)
    (hps : ps.head? = some '+') :
    ∀ (cs : List Char) (fuel : Nat), (∀ c ∈ cs, c ≠ '+') →
      replaceAllF fuel cs ps rep = cs := by
  cases ps with
  | nil => cases hps
  | cons p ps' =>
    injection hps with hp
    subst hp
    intro cs
    induction cs with
    | nil => intro fuel _; cases fuel <;> rfl
    | cons c rest ih =>
      intro fuel h
      cases fuel with
      | zero => rfl
      | succ f =>
        have hc : c ≠ '+' := h c (List.mem_cons_self c rest)
        have hd : decide (('+' : Char) = c) = false :=
          decide_eq_false (fun he => hc he.symm)
        simp only [replaceAllF, matchesAt, hd, Bool.false_and,
          Bool.and_false, Bool.false_eq_true, if_false]
        rw [ih f (fun x hx => h x (List.mem_cons_of_mem c hx))]

/-- Scanning a plus-free block before a pattern headed by `+` copies the
block verbatim and continues on the tail with the remaining fuel. -/
theorem replaceAllF_append_no_plus (ps rep : List Char)
    (hps : ps.head? = some '+') :
    ∀ (cs : List Char) (fuel : Nat) (tl : List Char),
      (∀ c ∈ cs, c ≠ '+') → cs.length ≤ fuel →
      replaceAllF fuel (cs ++ tl) ps rep =
        cs ++ replaceAllF (fuel - cs.length) tl ps rep := by
  cases ps with
  | nil => cases hps
  | cons p ps' =>
    injection hps with hp
    subst hp
    intro cs
    induction cs with
    | nil => intro fuel tl _ _; simp
    | cons c rest ih =>
      intro fuel tl h hlen
      cases fuel with
      | zero => exact absurd hlen (by simp)
      | succ f =>
        have hc : c ≠ '+' := h c (List.mem_cons_self c rest)
        have hd : decide (('+' : Char) = c) = false :=
          decide_eq_false (fun he => hc he.symm)
        simp only [List.cons_append, replaceAllF, matchesAt, hd,
          Bool.false_and, Bool.and_false, Bool.false_eq_true, if_false,
          List.append_eq]
        rw [ih f tl (fun x hx => h x (List.mem_cons_of_mem c hx))
          (Nat.le_of_succ_le_succ hlen)]
        simp [Nat.succ_sub_succ]

/-- The offset scan finds no offset when no sign character occurs at
index 8 or later. -/
theorem splitOffsetAux_nosign :
    ∀ (cs : List Char) (i : Nat),
      (∀ c ∈ cs.drop (8 - i), ¬(c = '+' ∨ c = '-')) →
      splitOffsetAux cs i = (cs, none) := by
  intro cs
  induction cs with
  | nil => intro i _; rfl
  | cons c rest ih =>
    intro i h
    by_cases hi : 8 ≤ i
    · have h0 : 8 - i = 0 := by omega
      rw [h0, List.drop_zero] at h
      have hc := h c (List.mem_cons_self c rest)
      have hd : (decide (c = '+') || decide (c = '-')) = false := by
        have h1 : decide (c = '+') = false :=
          decide_eq_false (fun he => hc (Or.inl he))
        have h2 : decide (c = '-') = false :=
          decide_eq_false (fun he => hc (Or.inr he))
        rw [h1, h2]
        rfl
      have hrest : splitOffsetAux rest (i + 1) = (rest, none) := by
        apply ih
        intro x hx
        have h1 : 8 - (i + 1) = 0 := by omega
        rw [h1, List.drop_zero] at hx
        exact h x (List.mem_cons_of_mem c hx)
      simp only [splitOffsetAux, hd, Bool.and_false, Bool.false_eq_true,
        if_false, hrest]
    · have hd : decide (8 ≤ i) = false := decide_eq_false hi
      have hrest : splitOffsetAux rest (i + 1) = (rest, none) := by
        apply ih
        intro x hx
        have h1 : 8 - i = (8 - (i + 1)) + 1 := by omega
        rw [h1, List.drop_succ_cons] at h
        exact h x hx
      simp only [splitOffsetAux, hd, Bool.false_and, Bool.false_eq_true,
        if_false, hrest]

/-- C6: loader timestamp parsing on the documented input format (an ISO
clock with no plus sign and no sign character from index 8 on,
optionally carrying the literal trailing UTC offset `+00:00`): the
offset suffix, when present, is stripped, and the result is a
timezone-naive datetime whose clock equals the local clock reading of
the input. -/
theorem c6_timestamp_strip_naive (clk : String)
    (hv : validIsoClock clk.data = true)
    (hplus : ∀ c ∈ clk.data, c ≠ '+')
    (hminus : ∀ c ∈ clk.data.drop 8, c ≠ '-') :
    parseCreatedAt clk = some ⟨clk, none⟩ ∧
    parseCreatedAt (clk ++ "+00:00") = some ⟨clk, none⟩ := by
  have hps : (("+00:00" : String).data).head? = some '+' := rfl
  have hsplit : splitOffsetAux clk.data 0 = (clk.data, none) := by
    apply splitOffsetAux_nosign
    intro c hc
    rw [Nat.sub_zero] at hc
    rintro (h1 | h2)
    · exact hplus c (List.drop_subset 8 clk.data hc) h1
    · exact hminus c hc h2
  have hiso : fromisoformat ⟨clk.data⟩ = some ⟨clk, none⟩ := by
    simp only [fromisoformat, hsplit, hv, if_true]
  constructor
  · have hrep : pyReplace clk "+00:00" "" = clk := by
      unfold pyReplace replaceAll
      rw [replaceAllF_id_of_no_plus _ _ hps clk.data clk.data.length hplus]
    unfold parseCreatedAt
    rw [hrep]
    exact hiso
  · have hlen : (clk.data ++ ("+00:00" : String).data).length =
        clk.data.length + 6 := by
      simp [List.length_append,
        show (("+00:00" : String).data).length = 6 from rfl]
    have hrep : pyReplace (clk ++ "+00:00") "+00:00" "" = clk := by
      unfold pyReplace replaceAll
      rw [show (clk ++ "+00:00").data = clk.data ++ ("+00:00" : String).data
        from rfl, hlen]
      rw [replaceAllF_append_no_plus _ _ hps clk.data
        (clk.data.length + 6) ("+00:00" : String).data hplus (by omega)]
      rw [show clk.data.length + 6 - clk.data.length = 6 from by omega]
      rw [show replaceAllF 6 ("+00:00" : String).data
        ("+00:00" : String).data ("" : String).data = [] from rfl]
      rw [List.append_nil]
    unfold parseCreatedAt
    rw [hrep]
    exact hiso

/-- Witness for C6: the scenario timestamp, with and without the
trailing UTC offset, parses to the naive clock reading. -/
theorem c6_timestamp_strip_naive_witness :
    parseCreatedAt "2024-01-15T10:00:00" =
      some ⟨"2024-01-15T10:00:00", none⟩ ∧
    parseCreatedAt ("2024-01-15T10:00:00" ++ "+00:00") =
      some ⟨"2024-01-15T10:00:00", none⟩ :=
  c6_timestamp_strip_naive "2024-01-15T10:00:00" (by decide) (by decide)
    (by decide)

end StabilityApp
